import Mathlib

/-!
Shallow embedding of the generic repository and pagination subsystem of the
Trends-Microservice shared package
(`src/shared_utils/repository/sqlalchemy.py` and
`src/shared_utils/pagination/page_number.py`), together with theorems
settling the specification claims about it.

Modelling conventions:
* Python attribute values are `PyValue` (None, bool, int, str), with Python
  truthiness as `PyValue.truthy`.
* An ORM entity is an attribute map plus a `truthy` flag standing for the
  Python truthiness of the instance itself (`True` for a plain object, but a
  model class may override `__bool__`/`__len__`).
* The database is the ordered list of persisted entities (`Store`); the
  asynchronous session is modelled by explicit state passing, and each
  `await` point is ordinary sequential composition.
* A SQLAlchemy `Select` is a filter/offset/limit descriptor (`SelectQuery`);
  `db.execute` of a select over an entity type yields one `Row` per matching
  entity, `Result.scalars().all()` unwraps the rows, `Result.all()` does not.
* Fallible operations return `Except PyErr _`; `PyErr` covers the exceptions
  the embedded code can raise (`ObjDoesNotExist` from
  `shared_utils.exceptions`, SQLAlchemy's `MultipleResultsFound` and
  `UnmappedInstanceError`, pydantic's `ValidationError`).
-/

namespace SharedUtils

/-- A Python attribute value: None, a bool, an int or a str. -/
inductive PyValue where
  | none
  | bool (b : Bool)
  | int (n : Int)
  | str (s : String)
deriving DecidableEq, Repr

/-- Python truthiness of a value: `None`, `False`, `0` and `""` are falsy. -/
def PyValue.truthy : PyValue → Bool
  | .none => false
  | .bool b => b
  | .int n => n != 0
  | .str s => s != ""

/-- An ORM model instance: its column attributes (the `id` column included),
plus the Python truthiness of the instance itself (`true` for a plain object;
a model class may override `__bool__` or `__len__`). -/
structure Entity where
  attrs : List (String × PyValue)
  truthy : Bool := true
deriving DecidableEq, Repr

/-- `getattr(e, name)`, restricted to the entity's column attributes:
`Option.none` when the entity has no such attribute. -/
def Entity.getattr (e : Entity) (name : String) : Option PyValue :=
  (e.attrs.find? (fun kv => kv.1 = name)).map (fun kv => kv.2)

/-- `hasattr(e, name)` over the entity's column attributes. -/
def Entity.hasattr (e : Entity) (name : String) : Bool :=
  (e.attrs.find? (fun kv => kv.1 = name)).isSome

/-- `setattr(e, name, v)` on an existing column attribute (in
`SQLAlchemyModelRepository.update` it is only reached under a `hasattr`
guard). -/
def Entity.setattr (e : Entity) (name : String) (v : PyValue) : Entity :=
  { e with attrs := e.attrs.map (fun kv => if kv.1 = name then (kv.1, v) else kv) }

/-- The relational store backing one entity type: the ordered list of
persisted entities. -/
abbrev Store := List Entity

/-- The exceptions the embedded code can raise. -/
inductive PyErr where
  | objDoesNotExist
  | multipleResultsFound
  | unmappedInstanceError
  | validationError
deriving DecidableEq, Repr

/-- The equality conjunction of `filter_by(**criteria)`: every key/value pair
must match the entity's attribute exactly; empty criteria match everything. -/
def matchesBy (e : Entity) (criteria : List (String × PyValue)) : Bool :=
  criteria.all (fun kv => e.getattr kv.1 = some kv.2)

/-- A SQLAlchemy `Select` over the managed entity type: equality criteria
accumulated by `.filter_by(...)`, plus the offset/limit slice. A fresh
`select(Model)` has no criteria, offset 0 and no limit. -/
structure SelectQuery where
  criteria : List (String × PyValue) := []
  off : Nat := 0
  lim : Option Nat := Option.none
deriving DecidableEq, Repr

/-- `sqlalchemy.select(Model)`. -/
def select : SelectQuery := {}

/-- `query.filter_by(**criteria)`: returns a new query with the extra
equality criteria; the original query is not mutated. -/
def SelectQuery.filter_by (q : SelectQuery) (criteria : List (String × PyValue)) :
    SelectQuery :=
  { q with criteria := q.criteria ++ criteria }

/-- `query.offset(n)`: returns a new query with the offset set to `n`. -/
def SelectQuery.offset (q : SelectQuery) (n : Nat) : SelectQuery :=
  { q with off := n }

/-- `query.limit(n)`: returns a new query with the limit set to `n`. -/
def SelectQuery.limit (q : SelectQuery) (n : Nat) : SelectQuery :=
  { q with lim := some n }

/-- Executing a select against the store: keep the rows matching the equality
criteria in store order, drop `off` rows, and keep at most `lim` rows. -/
def runQuery (db : Store) (q : SelectQuery) : List Entity :=
  let rows := (db.filter (fun e => matchesBy e q.criteria)).drop q.off
  match q.lim with
  | Option.none => rows
  | some n => rows.take n

/-- A SQLAlchemy result `Row` for a select over one entity type: a one-element
tuple wrapping the entity. `Result.all()` yields these rows;
`Result.scalars().all()` yields the entities themselves. -/
structure Row where
  scalar : Entity
deriving DecidableEq, Repr

/-- `Result.scalar_one_or_none()`: `None` on zero rows, the entity on exactly
one row, and `MultipleResultsFound` on more than one row. -/
def scalar_one_or_none (rows : List Entity) : Except PyErr (Option Entity) :=
  match rows with
  | [] => .ok Option.none
  | [e] => .ok (some e)
  | _ => .error .multipleResultsFound

/-- `SQLAlchemyModelRepository.get_all`: executes `select(Model)` and returns
`result.scalars().all()`. -/
def get_all (db : Store) : List Entity :=
  runQuery db select

/-- `SQLAlchemyModelRepository.filter_by`: executes
`select(Model).filter_by(**kwargs)` and returns `result.all()` — the raw
`Row` tuples, not the unwrapped entities. -/
def filter_by (db : Store) (criteria : List (String × PyValue)) : List Row :=
  (runQuery db (select.filter_by criteria)).map Row.mk

/-- `SQLAlchemyModelRepository.get_by`: executes
`select(Model).filter_by(**kwargs)`, takes `scalar_one_or_none()`, and raises
`ObjDoesNotExist` on `if not result` — a truthiness test, so a falsy matched
instance is treated like a missing one. -/
def get_by (db : Store) (criteria : List (String × PyValue)) :
    Except PyErr Entity := do
  let result ← scalar_one_or_none (runQuery db (select.filter_by criteria))
  match result with
  | Option.none => .error .objDoesNotExist
  | some e => if e.truthy then .ok e else .error .objDoesNotExist

/-- `SQLAlchemyModelRepository.get_by_id`: the body is
`result = await self.get_by(id=id)` with no return statement, so the function
propagates `get_by`'s exceptions but returns Python `None` on success. -/
def get_by_id (db : Store) (id : PyValue) : Except PyErr (Option Entity) := do
  let _result ← get_by db [("id", id)]
  .ok Option.none

/-- `SQLAlchemyModelRepository.get_filter_query`:
`select(Model).filter_by(**filters)`. -/
def get_filter_query (filters : List (String × PyValue)) : SelectQuery :=
  select.filter_by filters

/-- `SQLAlchemyModelRepository.count_filter_query`: executes
`select(func.count()).select_from(query.subquery())`, i.e. the number of rows
the given query produces. -/
def count_filter_query (db : Store) (query : SelectQuery) : Nat :=
  (runQuery db query).length

/-- `SQLAlchemyModelRepository.execute_filter_query`: executes the query and
returns `result.scalars().all()`. -/
def execute_filter_query (db : Store) (query : SelectQuery) : List Entity :=
  runQuery db query

/-- `PageNumberPaginationQueryParams`: pydantic-validated pagination
parameters, defaults `page=1`, `size=10`. -/
structure PageNumberPaginationQueryParams where
  page : Nat := 1
  size : Nat := 10
deriving DecidableEq, Repr

/-- The pydantic range constraints on the parameters: `page ≥ 1`,
`1 ≤ size ≤ 101`. -/
def PageNumberPaginationQueryParams.valid
    (p : PageNumberPaginationQueryParams) : Prop :=
  1 ≤ p.page ∧ 1 ≤ p.size ∧ p.size ≤ 101

instance (p : PageNumberPaginationQueryParams) : Decidable p.valid := by
  unfold PageNumberPaginationQueryParams.valid
  infer_instance

/-- `PageNumberPaginationResponse[Schema]`. -/
structure PageNumberPaginationResponse (Schema : Type) where
  total_count : Nat
  next_page : Option Nat
  previous_page : Option Nat
  results : Option (List Schema)
deriving DecidableEq, Repr

/-- `PageNumberPaginator.paginate_query`:
`query.offset((page - 1) * size).limit(size)`. -/
def paginate_query (query : SelectQuery)
    (query_params : PageNumberPaginationQueryParams) : SelectQuery :=
  (query.offset ((query_params.page - 1) * query_params.size)).limit
    query_params.size

/-- `PageNumberPaginator.paginate_response`. On empty `results` the Python
code calls
`PageNumberPaginationResponse(count=0, next_page=None, previous_page=None, results=[])`:
the model has no field `count` and its required field `total_count` is not
supplied, so pydantic raises `ValidationError`. On nonempty `results` it
assembles the envelope with the total-pages policy and validates each result
through `response_schema.model_validate`, embedded as the total conversion
`model_validate`. -/
def paginate_response {Schema : Type} (results : List Entity)
    (total_count : Nat) (query_params : PageNumberPaginationQueryParams)
    (model_validate : Entity → Schema) :
    Except PyErr (PageNumberPaginationResponse Schema) :=
  if results.isEmpty then
    .error .validationError
  else
    let page_size := query_params.size
    let current_page := query_params.page
    let total_pages :=
      if page_size > 0 then (total_count + page_size - 1) / page_size else 0
    let previous_page :=
      if current_page > 1 then some (current_page - 1) else Option.none
    let next_page :=
      if current_page < total_pages then some (current_page + 1) else Option.none
    .ok {
      total_count := total_count
      next_page := next_page
      previous_page := previous_page
      results := some (results.map model_validate)
    }

/-- `SQLAlchemyModelRepository.get_paginated`: build the filtered query,
count it, slice it with the paginator, execute the slice, assemble the
response — in that order, each step consuming the previous one's result. -/
def get_paginated {Schema : Type} (db : Store)
    (query_params : PageNumberPaginationQueryParams)
    (response_schema : Entity → Schema)
    (filters : List (String × PyValue)) :
    Except PyErr (PageNumberPaginationResponse Schema) :=
  let filter_query := get_filter_query filters
  let total_query_count := count_filter_query db filter_query
  let paginated_query := paginate_query filter_query query_params
  let results := execute_filter_query db paginated_query
  paginate_response results total_query_count query_params response_schema

/-- The update loop of `SQLAlchemyModelRepository.update`, operating on the
value `get_by_id` returned (which may be Python `None`): for each key/value
pair, overwrite the attribute when the new value is truthy, the attribute
exists and the current value differs. `hasattr(None, field)` is `False` for
entity column attributes, so on `None` the loop changes nothing. -/
def updateApply (obj : Option Entity) (kwargs : List (String × PyValue)) :
    Option Entity :=
  kwargs.foldl
    (fun acc fv =>
      match acc with
      | Option.none => Option.none
      | some e =>
          if fv.2.truthy && e.hasattr fv.1 && e.getattr fv.1 != some fv.2 then
            some (e.setattr fv.1 fv.2)
          else
            some e)
    obj

/-- `db.commit()` after the update loop: the session flushes the mutated
object back to the store (replacing the loaded entity by its updated
version); nothing to flush when the loaded object was `None`. -/
def commitObj (db : Store) (old new? : Option Entity) : Store :=
  match old, new? with
  | some o, some n => db.map (fun e => if e = o then n else e)
  | _, _ => db

/-- `SQLAlchemyModelRepository.update`: loads the object via `get_by_id`
(exceptions propagate), runs the truthy/hasattr/differs update loop, commits,
refreshes only `if obj is not None`, and returns `obj`. Returns the new store
paired with the returned value. -/
def update (db : Store) (id : PyValue) (kwargs : List (String × PyValue)) :
    Except PyErr (Store × Option Entity) := do
  let obj ← get_by_id db id
  let obj2 := updateApply obj kwargs
  let db2 := commitObj db obj obj2
  .ok (db2, obj2)

/-- `SQLAlchemyModelRepository.delete`: loads the object via `get_by_id`
(exceptions propagate) and calls `db.delete(obj)` then commits. SQLAlchemy's
`Session.delete` raises `UnmappedInstanceError` when handed `None` instead of
a mapped instance; on a real instance the commit removes it from the store. -/
def delete (db : Store) (id : PyValue) : Except PyErr Store := do
  let obj ← get_by_id db id
  match obj with
  | Option.none => .error .unmappedInstanceError
  | some e => .ok (db.filter (fun x => x != e))

/-- A store holding exactly one entity, with id 1. -/
def entity1 : Entity :=
  { attrs := [("id", PyValue.int 1), ("name", PyValue.str "a")] }

def store1 : Store := [entity1]

/-- C1: the claim says `get_by_id(id)` returns the unique entity whose
identifier equals `id` when exactly one match exists. The code raises
`ObjDoesNotExist` on zero matches as claimed, but on a unique match it
returns Python `None`, not the entity: the body assigns `get_by`'s result
and never returns it. -/
theorem get_by_id_returns_none_on_unique_match :
    get_by_id store1 (PyValue.int 1) = .ok Option.none ∧
    get_by store1 [("id", PyValue.int 1)] = .ok entity1 ∧
    get_by_id ([] : Store) (PyValue.int 1) = .error PyErr.objDoesNotExist :=
  ⟨rfl, rfl, rfl⟩

/-- C2: the claim says `paginate_response` on empty `results` returns the
envelope with `total_count = 0` and never raises. The code instead raises
pydantic `ValidationError`: the constructor call passes `count=0` while the
model's required field is `total_count`. -/
theorem paginate_response_empty_raises :
    paginate_response ([] : List Entity) 5 { page := 1, size := 10 }
      (fun e => e) = .error PyErr.validationError :=
  rfl

/-- C3: the claim says `delete(id)` deletes the loaded entity and commits, so
that a subsequent `get_by_id(id)` raises `ObjDoesNotExist`. Because
`get_by_id` returns `None`, `db.delete(None)` raises
`UnmappedInstanceError`, the store keeps the entity, and the subsequent
`get_by_id(id)` still succeeds (returning `None`) instead of raising. -/
theorem delete_raises_and_entity_survives :
    delete store1 (PyValue.int 1) = .error PyErr.unmappedInstanceError ∧
    get_by_id store1 (PyValue.int 1) = .ok Option.none :=
  ⟨rfl, rfl⟩

/-- C4: the claim says `update(id, fields)` overwrites every recognized,
truthy, differing field and returns the refreshed entity. Here the new value
`"b"` for `name` is truthy, recognized and differs from the current `"a"`,
yet the store is unchanged and `None` is returned: the loop runs over the
`None` that `get_by_id` produced, for which `hasattr` fails on every column
attribute. -/
theorem update_changes_nothing_and_returns_none :
    update store1 (PyValue.int 1) [("name", PyValue.str "b")] =
      .ok (store1, Option.none) ∧
    (PyValue.str "b").truthy = true ∧
    entity1.hasattr "name" = true ∧
    entity1.getattr "name" ≠ some (PyValue.str "b") :=
  ⟨rfl, rfl, rfl, by decide⟩

/-- C5: the claim says `filter_by(criteria)` returns the matching entities
and, on empty criteria, the same entities as `get_all`. The code returns
`result.all()` — one-element `Row` tuples wrapping each entity — while
`get_all` returns `result.scalars().all()` — the entities themselves; the
two agree only after unwrapping each row. -/
theorem filter_by_returns_rows_not_entities :
    filter_by store1 [] = [Row.mk entity1] ∧
    get_all store1 = [entity1] ∧
    (filter_by store1 []).map Row.scalar = get_all store1 :=
  ⟨rfl, rfl, rfl⟩

/-- Inversion for a successful `paginate_response`: the results were nonempty
and the response is exactly the assembled envelope. -/
theorem paginate_response_ok_elim {Schema : Type} {results : List Entity}
    {tc : Nat} {p : PageNumberPaginationQueryParams} {mv : Entity → Schema}
    {r : PageNumberPaginationResponse Schema}
    (h : paginate_response results tc p mv = .ok r) :
    results ≠ [] ∧
    r = { total_count := tc
          next_page :=
            if p.page < (if p.size > 0 then (tc + p.size - 1) / p.size else 0)
            then some (p.page + 1) else Option.none
          previous_page :=
            if p.page > 1 then some (p.page - 1) else Option.none
          results := some (results.map mv) } := by
  simp only [paginate_response] at h
  split at h
  · cases h
  · next he =>
    injection h with h2
    refine ⟨fun hn => he (by simp [hn]), h2.symm⟩

/-- C6: for every valid page parameters and nonempty results,
`paginate_response` follows the total-pages policy:
`total_pages = ceil(total_count / size)`, `next_page = page + 1` exactly when
`page < total_pages`, `previous_page = page - 1` exactly when `page > 1`. -/
theorem paginate_response_total_pages_policy {Schema : Type}
    (results : List Entity) (total_count : Nat)
    (p : PageNumberPaginationQueryParams) (mv : Entity → Schema)
    (hne : results ≠ []) (hv : p.valid) :
    paginate_response results total_count p mv = .ok
      { total_count := total_count
        next_page :=
          if p.page < total_count ⌈/⌉ p.size then some (p.page + 1)
          else Option.none
        previous_page :=
          if 1 < p.page then some (p.page - 1) else Option.none
        results := some (results.map mv) } := by
  obtain ⟨hp, hs, -⟩ := hv
  have he : results.isEmpty = false := by
    cases results with
    | nil => exact absurd rfl hne
    | cons a l => rfl
  simp only [paginate_response, he, Bool.false_eq_true, if_false,
    Nat.ceilDiv_eq_add_pred_div, gt_iff_lt]
  rw [if_pos (show 0 < p.size from hs)]

/-- C6 witness: the spec's example — 25 matching entities, page 2, size 10 —
yields `total_count = 25`, `previous_page = 1`, `next_page = 3`. -/
theorem paginate_response_total_pages_policy_witness :
    ([entity1] ≠ ([] : List Entity)) ∧
    PageNumberPaginationQueryParams.valid { page := 2, size := 10 } ∧
    paginate_response [entity1] 25 { page := 2, size := 10 } (fun e => e) =
      .ok { total_count := 25, next_page := some 3, previous_page := some 1,
            results := some [entity1] } :=
  ⟨by decide, by decide,
    paginate_response_total_pages_policy [entity1] 25
      { page := 2, size := 10 } (fun e => e) (by decide) (by decide)⟩

/-- C7: for every base query without a prior slice and valid parameters,
`paginate_query` sets offset `(page - 1) * size` and limit `size`, so
executing the paginated query yields exactly the elements
`[(page-1)*size, (page-1)*size + size)` of the full filtered result list. -/
theorem paginate_query_slices (db : Store) (q : SelectQuery)
    (p : PageNumberPaginationQueryParams)
    (hoff : q.off = 0) (hlim : q.lim = Option.none) (_hv : p.valid) :
    runQuery db (paginate_query q p) =
      List.take p.size (List.drop ((p.page - 1) * p.size) (runQuery db q)) := by
  simp [runQuery, paginate_query, SelectQuery.offset, SelectQuery.limit,
    hoff, hlim]

/-- C7 witness: page 2 of size 1 over the one-entity store is the slice
`[1, 2)` of the full result list (here empty). -/
theorem paginate_query_slices_witness :
    select.off = 0 ∧ select.lim = Option.none ∧
    PageNumberPaginationQueryParams.valid { page := 2, size := 1 } ∧
    runQuery store1 (paginate_query select { page := 2, size := 1 }) =
      List.take 1 (List.drop 1 (runQuery store1 select)) :=
  ⟨rfl, rfl, by decide,
    paginate_query_slices store1 select { page := 2, size := 1 } rfl rfl
      (by decide)⟩

/-- C8: `get_paginated` computes the count on the filtered query before the
paginator slices it, so whenever it returns a response the reported
`total_count` equals the number of stored rows matching the filters,
whatever the page and size. (The count, slice, execute and assemble steps
are sequenced in the definition exactly as in the source, each consuming the
previous step's result.) -/
theorem get_paginated_total_count_is_prefilter_count {Schema : Type}
    (db : Store) (p : PageNumberPaginationQueryParams)
    (mv : Entity → Schema) (filters : List (String × PyValue))
    (r : PageNumberPaginationResponse Schema)
    (h : get_paginated db p mv filters = .ok r) :
    r.total_count = count_filter_query db (get_filter_query filters) ∧
    r.total_count = (db.filter (fun e => matchesBy e filters)).length := by
  unfold get_paginated at h
  have h2 := (paginate_response_ok_elim h).2
  subst h2
  exact ⟨rfl, rfl⟩

/-- C8 witness: one stored entity, empty filters, page 1 of size 10 — the
response reports `total_count = 1`, the filtered row count. -/
theorem get_paginated_total_count_witness :
    get_paginated store1 { page := 1, size := 10 } (fun e => e) [] = .ok
      { total_count := 1, next_page := Option.none,
        previous_page := Option.none, results := some [entity1] } ∧
    ((1 : Nat) = count_filter_query store1 (get_filter_query []) ∧
     (1 : Nat) = (store1.filter (fun e => matchesBy e [])).length) :=
  ⟨rfl,
    get_paginated_total_count_is_prefilter_count store1
      { page := 1, size := 10 } (fun e => e) []
      { total_count := 1, next_page := Option.none,
        previous_page := Option.none, results := some [entity1] } rfl⟩

/-- C9: for every valid page parameters, whenever `paginate_response`
produces a response, its `previous_page` is `none` exactly when the
requested page is 1. -/
theorem paginate_response_previous_page_iff {Schema : Type}
    (results : List Entity) (tc : Nat)
    (p : PageNumberPaginationQueryParams) (mv : Entity → Schema)
    (r : PageNumberPaginationResponse Schema)
    (hv : p.valid) (h : paginate_response results tc p mv = .ok r) :
    (r.previous_page = Option.none ↔ p.page = 1) := by
  obtain ⟨hp, -, -⟩ := hv
  have h2 := (paginate_response_ok_elim h).2
  subst h2
  show (if p.page > 1 then some (p.page - 1) else Option.none) = Option.none
    ↔ p.page = 1
  split
  · next h1 => simp; omega
  · next h1 => simp; omega

/-- C9 witness: page 1 yields `previous_page = none`. -/
theorem paginate_response_previous_page_iff_witness :
    PageNumberPaginationQueryParams.valid { page := 1, size := 10 } ∧
    paginate_response [entity1] 1 { page := 1, size := 10 } (fun e => e) =
      .ok { total_count := 1, next_page := Option.none,
            previous_page := Option.none, results := some [entity1] } ∧
    ((Option.none : Option Nat) = Option.none ↔ (1 : Nat) = 1) :=
  ⟨by decide, rfl,
    paginate_response_previous_page_iff [entity1] 1
      { page := 1, size := 10 } (fun e => e)
      { total_count := 1, next_page := Option.none,
        previous_page := Option.none, results := some [entity1] }
      (by decide) rfl⟩

/-- C10: `get_by` tests the scalar result with `if not result`, a truthiness
test rather than a comparison to `None` — so when the unique matched
instance is falsy (its class overrides `__bool__`/`__len__`), `get_by`
raises `ObjDoesNotExist` even though a row matched. -/
theorem get_by_raises_on_falsy_unique_match
    (db : Store) (criteria : List (String × PyValue)) (e : Entity)
    (hmatch : runQuery db (select.filter_by criteria) = [e])
    (hfalsy : e.truthy = false) :
    get_by db criteria = .error PyErr.objDoesNotExist := by
  unfold get_by
  rw [hmatch]
  show (if e.truthy then Except.ok e
        else Except.error PyErr.objDoesNotExist) =
      Except.error PyErr.objDoesNotExist
  rw [hfalsy]
  simp

/-- An entity whose class makes the instance falsy. -/
def entityFalsy : Entity :=
  { attrs := [("id", PyValue.int 2)], truthy := false }

/-- C10 witness: a store whose unique `id = 2` entity is falsy — `get_by`
raises `ObjDoesNotExist` despite the match. -/
theorem get_by_raises_on_falsy_unique_match_witness :
    runQuery [entityFalsy] (select.filter_by [("id", PyValue.int 2)]) =
      [entityFalsy] ∧
    entityFalsy.truthy = false ∧
    get_by [entityFalsy] [("id", PyValue.int 2)] =
      .error PyErr.objDoesNotExist :=
  ⟨rfl, rfl,
    get_by_raises_on_falsy_unique_match [entityFalsy]
      [("id", PyValue.int 2)] entityFalsy rfl rfl⟩

end SharedUtils
